import Mathlib

/-!
Verification of the environment-variable credential loader
(`qiskit/providers/ibmq/credentials/environ.py`).

The process environment is modelled as a partial map from variable names to
string values.  `os.getenv` returns the value when the variable is present and
`None` otherwise; Python truthiness of the result (`if os.getenv(...)`)
treats both a missing variable and an empty string as false.
-/

/-- A process environment: maps variable names to their optional values. -/
def Env : Type := String → Option String

/-- Python truthiness of an `os.getenv` result: a present, non-empty string. -/
def truthy : Option String → Bool
  | some v => v != ""
  | none => false

/-- The credential record.  The `Credentials` class lives in `credentials.py`,
which is not part of this fragment; its fields follow the spec's data model:
token and base URL required, websocket URL / hub / group / project optional. -/
structure Credentials where
  token : String
  url : String
  websocket_url : Option String := none
  hub : Option String := none
  group : Option String := none
  project : Option String := none
deriving DecidableEq, Repr

/-- The uniqueness key type: the hub/group/project triple. -/
abbrev UniqueId : Type := Option String × Option String × Option String

/-- Modelled from the spec: the `Credentials.unique_id` method (the file
`credentials.py` is not under `src/`).  The spec states the uniqueness key is
"derived deterministically from the hub/group/project triple (or a default
when absent)"; we model it as that triple itself, with `none` standing for
the default of an absent component. -/
def Credentials.unique_id (c : Credentials) : UniqueId :=
  (c.hub, c.group, c.project)

/-- Modelled from the spec: the `Credentials` constructor called as
`Credentials(**credentials)` (the file `credentials.py` is not under `src/`).
The spec says token and base URL are required and the other four fields are
optional; `none` models the `TypeError` Python raises when a required keyword
argument is missing from the keyword dictionary. -/
def Credentials.ofKwargs (kw : List (String × String)) : Option Credentials :=
  match kw.lookup "token", kw.lookup "url" with
  | some t, some u =>
      some { token := t
             url := u
             websocket_url := kw.lookup "websocket_url"
             hub := kw.lookup "hub"
             group := kw.lookup "group"
             project := kw.lookup "project" }
  | _, _ => none

/-- `VARIABLES_MAP`: maps each recognized environment variable name to its
credential parameter, in the source's order. -/
def VARIABLES_MAP : List (String × String) :=
  [("QE_TOKEN", "token"),
   ("QE_URL", "url"),
   ("QE_WEBSOCKET_URL", "websocket_url"),
   ("QE_HUB", "hub"),
   ("QE_GROUP", "group"),
   ("QE_PROJECT", "project")]

/-- One iteration of the loop
`if os.getenv(envar_name): credentials[credential_key] = os.getenv(envar_name)`:
when the variable is present and non-empty, bind the credential key to its
value, otherwise leave the dictionary unchanged. -/
def addVar (env : Env) (acc : List (String × String))
    (envarName credentialKey : String) : List (String × String) :=
  match env envarName with
  | some v => if v = "" then acc else acc ++ [(credentialKey, v)]
  | none => acc

/-- The `credentials` keyword dictionary built by iterating `VARIABLES_MAP`. -/
def buildKwargs (env : Env) : List (String × String) :=
  VARIABLES_MAP.foldl (fun acc p => addVar env acc p.1 p.2) []

/-- `read_credentials_from_environ`: return an empty mapping unless both
`QE_TOKEN` and `QE_URL` are truthy, otherwise build the keyword dictionary
from the recognized variables, construct the credentials, and return the
single-entry mapping keyed by `unique_id`.  The `Except` layer records the
possibility of an uncaught Python exception from the constructor call. -/
def read_credentials_from_environ (env : Env) :
    Except String (List (UniqueId × Credentials)) :=
  if !(truthy (env "QE_TOKEN") && truthy (env "QE_URL")) then
    .ok []
  else
    match Credentials.ofKwargs (buildKwargs env) with
    | some c => .ok [(c.unique_id, c)]
    | none => .error "TypeError"

/-! ### Stateful variant

To talk about side effects and idempotence we also give the translation in
explicit state-passing style: every `os.getenv` call is an operation on the
environment state that returns the value read together with the resulting
state.  `os.getenv` only reads, so it returns the state unchanged. -/

/-- `os.getenv` as a state operation: yields the value and the (unchanged)
environment. -/
def getenvSt (name : String) (env : Env) : Option String × Env :=
  (env name, env)

/-- One loop iteration in state-passing style.  The body reads the variable
twice, exactly as the source does (once in the condition, once on the
right-hand side of the assignment). -/
def collectStep (st : List (String × String) × Env) (p : String × String) :
    List (String × String) × Env :=
  let g₁ := getenvSt p.1 st.2
  if truthy g₁.1 then
    let g₂ := getenvSt p.1 g₁.2
    (match g₂.1 with
     | some v => st.1 ++ [(p.2, v)]
     | none => st.1,
     g₂.2)
  else (st.1, g₁.2)

/-- `read_credentials_from_environ` in state-passing style: the result paired
with the final environment state. -/
def read_credentials_from_environ_st (env : Env) :
    Except String (List (UniqueId × Credentials)) × Env :=
  let p₁ := getenvSt "QE_TOKEN" env
  let p₂ := getenvSt "QE_URL" p₁.2
  if !(truthy p₁.1 && truthy p₂.1) then
    (.ok [], p₂.2)
  else
    let st := VARIABLES_MAP.foldl collectStep ([], p₂.2)
    match Credentials.ofKwargs st.1 with
    | some c => (.ok [(c.unique_id, c)], st.2)
    | none => (.error "TypeError", st.2)

def optEntry (k : String) : Option String → List (String × String)
  | some v => if v = "" then [] else [(k, v)]
  | none => []

def optVal : Option String → Option String
  | some v => if v = "" then none else some v
  | none => none

lemma addVar_eq (env : Env) (acc : List (String × String)) (n k : String) :
    addVar env acc n k = acc ++ optEntry k (env n) := by
  cases h : env n with
  | none => simp [addVar, optEntry, h]
  | some v =>
      simp only [addVar, optEntry, h]
      split <;> simp

lemma buildKwargs_eq (env : Env) :
    buildKwargs env =
      optEntry "token" (env "QE_TOKEN") ++
        (optEntry "url" (env "QE_URL") ++
          (optEntry "websocket_url" (env "QE_WEBSOCKET_URL") ++
            (optEntry "hub" (env "QE_HUB") ++
              (optEntry "group" (env "QE_GROUP") ++
                optEntry "project" (env "QE_PROJECT"))))) := by
  simp [buildKwargs, VARIABLES_MAP, addVar_eq, List.append_assoc]

lemma lookup_optEntry_ne {k k' : String} (h : ¬ (k == k') = true)
    (o : Option String) (l : List (String × String)) :
    (optEntry k' o ++ l).lookup k = l.lookup k := by
  cases o with
  | none => simp [optEntry]
  | some v =>
      simp only [optEntry]
      split <;> simp [List.lookup, h]

lemma lookup_optEntry_self (k : String) (o : Option String)
    (l : List (String × String)) (h : l.lookup k = none) :
    (optEntry k o ++ l).lookup k = optVal o := by
  cases o with
  | none => simpa [optEntry, optVal] using h
  | some v =>
      simp only [optEntry, optVal]
      split <;> simp [List.lookup, h]

lemma lookup_optEntry_nil_ne {k k' : String} (h : ¬ (k == k') = true)
    (o : Option String) : (optEntry k' o).lookup k = none := by
  simpa using lookup_optEntry_ne h o []

lemma lookup_optEntry_nil_self (k : String) (o : Option String) :
    (optEntry k o).lookup k = optVal o := by
  simpa using lookup_optEntry_self k o [] rfl

lemma lookup_kw_token (env : Env) :
    (buildKwargs env).lookup "token" = optVal (env "QE_TOKEN") := by
  rw [buildKwargs_eq]
  refine lookup_optEntry_self _ _ _ ?_
  rw [lookup_optEntry_ne (by decide), lookup_optEntry_ne (by decide),
    lookup_optEntry_ne (by decide), lookup_optEntry_ne (by decide),
    lookup_optEntry_nil_ne (by decide)]

lemma lookup_kw_url (env : Env) :
    (buildKwargs env).lookup "url" = optVal (env "QE_URL") := by
  rw [buildKwargs_eq, lookup_optEntry_ne (by decide)]
  refine lookup_optEntry_self _ _ _ ?_
  rw [lookup_optEntry_ne (by decide), lookup_optEntry_ne (by decide),
    lookup_optEntry_ne (by decide), lookup_optEntry_nil_ne (by decide)]

lemma lookup_kw_websocket (env : Env) :
    (buildKwargs env).lookup "websocket_url" =
      optVal (env "QE_WEBSOCKET_URL") := by
  rw [buildKwargs_eq, lookup_optEntry_ne (by decide),
    lookup_optEntry_ne (by decide)]
  refine lookup_optEntry_self _ _ _ ?_
  rw [lookup_optEntry_ne (by decide), lookup_optEntry_ne (by decide),
    lookup_optEntry_nil_ne (by decide)]

lemma lookup_kw_hub (env : Env) :
    (buildKwargs env).lookup "hub" = optVal (env "QE_HUB") := by
  rw [buildKwargs_eq, lookup_optEntry_ne (by decide),
    lookup_optEntry_ne (by decide), lookup_optEntry_ne (by decide)]
  refine lookup_optEntry_self _ _ _ ?_
  rw [lookup_optEntry_ne (by decide), lookup_optEntry_nil_ne (by decide)]

lemma lookup_kw_group (env : Env) :
    (buildKwargs env).lookup "group" = optVal (env "QE_GROUP") := by
  rw [buildKwargs_eq, lookup_optEntry_ne (by decide),
    lookup_optEntry_ne (by decide), lookup_optEntry_ne (by decide),
    lookup_optEntry_ne (by decide)]
  refine lookup_optEntry_self _ _ _ ?_
  rw [lookup_optEntry_nil_ne (by decide)]

lemma lookup_kw_project (env : Env) :
    (buildKwargs env).lookup "project" = optVal (env "QE_PROJECT") := by
  rw [buildKwargs_eq, lookup_optEntry_ne (by decide),
    lookup_optEntry_ne (by decide), lookup_optEntry_ne (by decide),
    lookup_optEntry_ne (by decide), lookup_optEntry_ne (by decide),
    lookup_optEntry_nil_self]

lemma read_credentials_of_truthy (env : Env) (t u : String)
    (ht : env "QE_TOKEN" = some t) (htne : t ≠ "")
    (hu : env "QE_URL" = some u) (hune : u ≠ "") :
    read_credentials_from_environ env =
      .ok [((optVal (env "QE_HUB"), optVal (env "QE_GROUP"),
             optVal (env "QE_PROJECT")),
            { token := t
              url := u
              websocket_url := optVal (env "QE_WEBSOCKET_URL")
              hub := optVal (env "QE_HUB")
              group := optVal (env "QE_GROUP")
              project := optVal (env "QE_PROJECT") })] := by
  have htt : truthy (env "QE_TOKEN") = true := by rw [ht]; simp [truthy, htne]
  have htu : truthy (env "QE_URL") = true := by rw [hu]; simp [truthy, hune]
  unfold read_credentials_from_environ Credentials.ofKwargs
  rw [htt, htu, lookup_kw_token, lookup_kw_url, ht, hu]
  simp [optVal, htne, hune, lookup_kw_websocket, lookup_kw_hub,
    lookup_kw_group, lookup_kw_project, Credentials.unique_id]

lemma collectStep_fst (acc : List (String × String)) (env : Env)
    (p : String × String) :
    collectStep (acc, env) p = (addVar env acc p.1 p.2, env) := by
  unfold collectStep getenvSt addVar
  cases h : env p.1 with
  | none => simp [truthy, h]
  | some v => by_cases hv : v = "" <;> simp [truthy, h, hv]

lemma foldl_collectStep_eq (env : Env) (l : List (String × String)) :
    ∀ acc : List (String × String),
      l.foldl collectStep (acc, env) =
        (l.foldl (fun a p => addVar env a p.1 p.2) acc, env) := by
  induction l with
  | nil => intro acc; rfl
  | cons p l ih =>
      intro acc
      rw [List.foldl_cons, collectStep_fst, List.foldl_cons, ih]

lemma read_st_eq (env : Env) :
    read_credentials_from_environ_st env =
      (read_credentials_from_environ env, env) := by
  unfold read_credentials_from_environ_st read_credentials_from_environ
    getenvSt buildKwargs
  by_cases hc : (truthy (env "QE_TOKEN") && truthy (env "QE_URL")) = true
  · simp only [hc, Bool.not_true, Bool.false_eq_true, if_false,
      foldl_collectStep_eq]
    cases hK : Credentials.ofKwargs
        (VARIABLES_MAP.foldl (fun a p => addVar env a p.1 p.2) []) <;>
      simp [hK]
  · simp only [Bool.not_eq_true] at hc
    simp [hc]

lemma read_st_snd (env : Env) :
    (read_credentials_from_environ_st env).2 = env := by
  rw [read_st_eq]

lemma truthy_iff (o : Option String) :
    truthy o = true ↔ ∃ v, o = some v ∧ v ≠ "" := by
  cases o <;> simp [truthy]

lemma read_credentials_of_not_truthy (env : Env)
    (h : (truthy (env "QE_TOKEN") && truthy (env "QE_URL")) = false) :
    read_credentials_from_environ env = .ok [] := by
  unfold read_credentials_from_environ
  rw [h]
  rfl

/-! ### The claims -/

/-- C1: whenever `QE_TOKEN` is missing or empty, or `QE_URL` is missing or
empty (or both), `read_credentials_from_environ` returns an empty mapping. -/
theorem read_credentials_empty_of_missing_required (env : Env)
    (h : env "QE_TOKEN" = none ∨ env "QE_TOKEN" = some "" ∨
         env "QE_URL" = none ∨ env "QE_URL" = some "") :
    read_credentials_from_environ env = .ok [] := by
  refine read_credentials_of_not_truthy env ?_
  rcases h with h | h | h | h <;> rw [h] <;> simp [truthy]

/-- Witness for C1: the empty environment. -/
theorem read_credentials_empty_of_missing_required_witness :
    ((fun _ => none : Env) "QE_TOKEN" = none) ∧
      read_credentials_from_environ (fun _ => none) = .ok [] :=
  ⟨rfl, read_credentials_empty_of_missing_required (fun _ => none)
    (Or.inl rfl)⟩

/-- C2: with `QE_TOKEN="abc"` and `QE_URL="http://x"` set and the four
optional recognized variables unset, `read_credentials_from_environ` returns
exactly one entry whose record has token `"abc"`, url `"http://x"`, and none
of the websocket_url, hub, group, project fields set. -/
theorem read_credentials_token_url_only (env : Env)
    (ht : env "QE_TOKEN" = some "abc") (hu : env "QE_URL" = some "http://x")
    (hw : env "QE_WEBSOCKET_URL" = none) (hh : env "QE_HUB" = none)
    (hg : env "QE_GROUP" = none) (hp : env "QE_PROJECT" = none) :
    read_credentials_from_environ env =
      .ok [((none, none, none),
            { token := "abc"
              url := "http://x"
              websocket_url := none
              hub := none
              group := none
              project := none })] := by
  rw [read_credentials_of_truthy env "abc" "http://x" ht (by decide) hu
    (by decide), hw, hh, hg, hp]
  rfl

/-- Witness for C2: a concrete environment holding exactly the two required
variables. -/
theorem read_credentials_token_url_only_witness :
    read_credentials_from_environ
        (fun n => if n = "QE_TOKEN" then some "abc"
                  else if n = "QE_URL" then some "http://x" else none) =
      .ok [((none, none, none),
            { token := "abc"
              url := "http://x"
              websocket_url := none
              hub := none
              group := none
              project := none })] :=
  read_credentials_token_url_only _ rfl rfl rfl rfl rfl rfl

/-- C3: whenever both `QE_TOKEN` and `QE_URL` are present and non-empty,
`read_credentials_from_environ` returns a mapping with exactly one entry. -/
theorem read_credentials_single_entry (env : Env)
    (ht : truthy (env "QE_TOKEN") = true)
    (hu : truthy (env "QE_URL") = true) :
    ∃ k c, read_credentials_from_environ env = .ok [(k, c)] := by
  obtain ⟨t, ht', htne⟩ := (truthy_iff _).1 ht
  obtain ⟨u, hu', hune⟩ := (truthy_iff _).1 hu
  exact ⟨_, _, read_credentials_of_truthy env t u ht' htne hu' hune⟩

/-- Witness for C3: the same concrete two-variable environment. -/
theorem read_credentials_single_entry_witness :
    ∃ k c, read_credentials_from_environ
        (fun n => if n = "QE_TOKEN" then some "abc"
                  else if n = "QE_URL" then some "http://x" else none) =
      .ok [(k, c)] :=
  read_credentials_single_entry _ rfl rfl

/-- C4: under the precondition, each recognized variable that is present and
non-empty contributes its mapped field with that value, and an absent
optional variable leaves its field unset, with no default substituted. -/
theorem read_credentials_field_mapping (env : Env)
    (ht : truthy (env "QE_TOKEN") = true)
    (hu : truthy (env "QE_URL") = true) :
    ∃ c : Credentials,
      read_credentials_from_environ env = .ok [(c.unique_id, c)] ∧
      env "QE_TOKEN" = some c.token ∧ env "QE_URL" = some c.url ∧
      (∀ v, env "QE_WEBSOCKET_URL" = some v → v ≠ "" →
        c.websocket_url = some v) ∧
      (env "QE_WEBSOCKET_URL" = none → c.websocket_url = none) ∧
      (∀ v, env "QE_HUB" = some v → v ≠ "" → c.hub = some v) ∧
      (env "QE_HUB" = none → c.hub = none) ∧
      (∀ v, env "QE_GROUP" = some v → v ≠ "" → c.group = some v) ∧
      (env "QE_GROUP" = none → c.group = none) ∧
      (∀ v, env "QE_PROJECT" = some v → v ≠ "" → c.project = some v) ∧
      (env "QE_PROJECT" = none → c.project = none) := by
  obtain ⟨t, ht', htne⟩ := (truthy_iff _).1 ht
  obtain ⟨u, hu', hune⟩ := (truthy_iff _).1 hu
  refine ⟨{ token := t
            url := u
            websocket_url := optVal (env "QE_WEBSOCKET_URL")
            hub := optVal (env "QE_HUB")
            group := optVal (env "QE_GROUP")
            project := optVal (env "QE_PROJECT") },
    ?_, ?_, ?_, ?_, ?_, ?_, ?_, ?_, ?_, ?_, ?_⟩
  · rw [read_credentials_of_truthy env t u ht' htne hu' hune]
    rfl
  · simpa using ht'
  · simpa using hu'
  all_goals
    first
      | (intro v hv hvne; rw [hv]; simp [optVal, hvne])
      | (intro hv; rw [hv]; rfl)

/-- Witness for C4: a concrete environment with a hub set and the other
optional variables absent. -/
theorem read_credentials_field_mapping_witness :
    ∃ c : Credentials,
      read_credentials_from_environ
          (fun n => if n = "QE_TOKEN" then some "abc"
                    else if n = "QE_URL" then some "http://x"
                    else if n = "QE_HUB" then some "h" else none) =
        .ok [(c.unique_id, c)] ∧
      (fun n => if n = "QE_TOKEN" then some "abc"
                else if n = "QE_URL" then some "http://x"
                else if n = "QE_HUB" then some "h" else none : Env)
          "QE_TOKEN" = some c.token ∧
      (fun n => if n = "QE_TOKEN" then some "abc"
                else if n = "QE_URL" then some "http://x"
                else if n = "QE_HUB" then some "h" else none : Env)
          "QE_URL" = some c.url ∧
      (∀ v, (fun n => if n = "QE_TOKEN" then some "abc"
                      else if n = "QE_URL" then some "http://x"
                      else if n = "QE_HUB" then some "h" else none : Env)
          "QE_WEBSOCKET_URL" = some v → v ≠ "" →
        c.websocket_url = some v) ∧
      ((fun n => if n = "QE_TOKEN" then some "abc"
                 else if n = "QE_URL" then some "http://x"
                 else if n = "QE_HUB" then some "h" else none : Env)
          "QE_WEBSOCKET_URL" = none → c.websocket_url = none) ∧
      (∀ v, (fun n => if n = "QE_TOKEN" then some "abc"
                      else if n = "QE_URL" then some "http://x"
                      else if n = "QE_HUB" then some "h" else none : Env)
          "QE_HUB" = some v → v ≠ "" → c.hub = some v) ∧
      ((fun n => if n = "QE_TOKEN" then some "abc"
                 else if n = "QE_URL" then some "http://x"
                 else if n = "QE_HUB" then some "h" else none : Env)
          "QE_HUB" = none → c.hub = none) ∧
      (∀ v, (fun n => if n = "QE_TOKEN" then some "abc"
                      else if n = "QE_URL" then some "http://x"
                      else if n = "QE_HUB" then some "h" else none : Env)
          "QE_GROUP" = some v → v ≠ "" → c.group = some v) ∧
      ((fun n => if n = "QE_TOKEN" then some "abc"
                 else if n = "QE_URL" then some "http://x"
                 else if n = "QE_HUB" then some "h" else none : Env)
          "QE_GROUP" = none → c.group = none) ∧
      (∀ v, (fun n => if n = "QE_TOKEN" then some "abc"
                      else if n = "QE_URL" then some "http://x"
                      else if n = "QE_HUB" then some "h" else none : Env)
          "QE_PROJECT" = some v → v ≠ "" → c.project = some v) ∧
      ((fun n => if n = "QE_TOKEN" then some "abc"
                 else if n = "QE_URL" then some "http://x"
                 else if n = "QE_HUB" then some "h" else none : Env)
          "QE_PROJECT" = none → c.project = none) :=
  read_credentials_field_mapping _ rfl rfl

/-- An environment with only `QE_TOKEN="abc"` and `QE_URL="http://x"` set. -/
def envAbc : Env := fun n =>
  if n = "QE_TOKEN" then some "abc"
  else if n = "QE_URL" then some "http://x" else none

/-- `envAbc` with `QE_HUB="h"`, `QE_GROUP="g"`, `QE_PROJECT="p"` additionally
set. -/
def envAbcHgp : Env := fun n =>
  if n = "QE_HUB" then some "h"
  else if n = "QE_GROUP" then some "g"
  else if n = "QE_PROJECT" then some "p" else envAbc n

/-- C5: additionally setting `QE_HUB="h"`, `QE_GROUP="g"`, `QE_PROJECT="p"`
changes the computed unique identifier and populates the hub, group and
project fields, while token and url stay `"abc"` and `"http://x"`. -/
theorem read_credentials_hgp_changes_key :
    read_credentials_from_environ envAbc =
      .ok [((none, none, none),
            { token := "abc", url := "http://x" })] ∧
    read_credentials_from_environ envAbcHgp =
      .ok [((some "h", some "g", some "p"),
            { token := "abc", url := "http://x",
              hub := some "h", group := some "g", project := some "p" })] ∧
    ((some "h", some "g", some "p") : UniqueId) ≠
      ((none, none, none) : UniqueId) := by
  refine ⟨rfl, rfl, ?_⟩
  simp

/-- C6: running the loader twice in sequence on an unchanged environment
yields equal results (the second run starts from the state the first run
left behind). -/
theorem read_credentials_idempotent (env : Env) :
    (read_credentials_from_environ_st
        (read_credentials_from_environ_st env).2).1 =
      (read_credentials_from_environ_st env).1 := by
  simp [read_st_eq]

/-- C7: variables outside the six recognized names are ignored: two
environments agreeing on the recognized variables produce equal mappings. -/
theorem read_credentials_ignores_unrecognized (env₁ env₂ : Env)
    (h : ∀ n ∈ ["QE_TOKEN", "QE_URL", "QE_WEBSOCKET_URL", "QE_HUB",
                "QE_GROUP", "QE_PROJECT"], env₁ n = env₂ n) :
    read_credentials_from_environ env₁ = read_credentials_from_environ env₂ := by
  have e₁ := h "QE_TOKEN" (by simp)
  have e₂ := h "QE_URL" (by simp)
  have e₃ := h "QE_WEBSOCKET_URL" (by simp)
  have e₄ := h "QE_HUB" (by simp)
  have e₅ := h "QE_GROUP" (by simp)
  have e₆ := h "QE_PROJECT" (by simp)
  unfold read_credentials_from_environ
  rw [buildKwargs_eq env₁, buildKwargs_eq env₂, e₁, e₂, e₃, e₄, e₅, e₆]

/-- Witness for C7: adding `QE_FOO` to a concrete environment leaves the
result unchanged. -/
theorem read_credentials_ignores_unrecognized_witness :
    (fun n => if n = "QE_FOO" then some "z" else envAbc n : Env) "QE_FOO" ≠
        envAbc "QE_FOO" ∧
      read_credentials_from_environ
          (fun n => if n = "QE_FOO" then some "z" else envAbc n) =
        read_credentials_from_environ envAbc :=
  ⟨by simp [envAbc],
   read_credentials_ignores_unrecognized _ _ (by decide)⟩

/-- C8: the loader has no side effect on the environment: the state after
the call equals the state before it. -/
theorem read_credentials_no_side_effects (env : Env) :
    (read_credentials_from_environ_st env).2 = env :=
  read_st_snd env

/-- C9: the loader never raises: on every environment it returns normally
with either an empty mapping or a one-entry mapping. -/
theorem read_credentials_never_raises (env : Env) :
    ∃ l, read_credentials_from_environ env = .ok l ∧
      (l = [] ∨ ∃ k c, l = [(k, c)]) := by
  by_cases hg : (truthy (env "QE_TOKEN") && truthy (env "QE_URL")) = true
  · obtain ⟨ht, hu⟩ := Bool.and_eq_true_iff.1 hg
    obtain ⟨t, ht', htne⟩ := (truthy_iff _).1 ht
    obtain ⟨u, hu', hune⟩ := (truthy_iff _).1 hu
    exact ⟨_, read_credentials_of_truthy env t u ht' htne hu' hune,
      Or.inr ⟨_, _, rfl⟩⟩
  · exact ⟨[], read_credentials_of_not_truthy env
      (Bool.not_eq_true _ ▸ Bool.of_not_eq_true hg), Or.inl rfl⟩

/-- C10: the key of every entry in the returned mapping equals the
`unique_id` of the record stored under it. -/
theorem read_credentials_key_is_unique_id (env : Env)
    (l : List (UniqueId × Credentials))
    (h : read_credentials_from_environ env = .ok l) :
    ∀ p ∈ l, p.1 = p.2.unique_id := by
  by_cases hg : (truthy (env "QE_TOKEN") && truthy (env "QE_URL")) = true
  · obtain ⟨ht, hu⟩ := Bool.and_eq_true_iff.1 hg
    obtain ⟨t, ht', htne⟩ := (truthy_iff _).1 ht
    obtain ⟨u, hu', hune⟩ := (truthy_iff _).1 hu
    rw [read_credentials_of_truthy env t u ht' htne hu' hune] at h
    obtain rfl := Except.ok.inj h.symm
    intro p hp
    rw [List.mem_singleton] at hp
    subst hp
    rfl
  · rw [read_credentials_of_not_truthy env
      (Bool.not_eq_true _ ▸ Bool.of_not_eq_true hg)] at h
    obtain rfl := Except.ok.inj h.symm
    intro p hp
    simp at hp

/-- Witness for C10: the key/record consistency at a concrete environment. -/
theorem read_credentials_key_is_unique_id_witness :
    read_credentials_from_environ envAbc =
        .ok [(((none, none, none) : UniqueId),
              ({ token := "abc", url := "http://x" } : Credentials))] ∧
      ((none, none, none) : UniqueId) =
        ({ token := "abc", url := "http://x" } : Credentials).unique_id :=
  ⟨rfl,
   read_credentials_key_is_unique_id envAbc
     [(((none, none, none) : UniqueId),
       ({ token := "abc", url := "http://x" } : Credentials))]
     rfl
     (((none, none, none) : UniqueId),
      ({ token := "abc", url := "http://x" } : Credentials))
     (List.mem_singleton.2 rfl)⟩
